import Mathlib

/-!
Verification of the ORM-Agent backend core (`backend/server.py`): the
sentiment classifier thresholds, the priority scorer, the two alert
detectors (sentiment ratio over a 2-hour window, volume spike over two
adjacent 1-hour windows), and the ingestion orchestration for comments,
mentions and posts.

Floats of the Python source are modelled as rationals (all thresholds and
the ratios compared against them are far apart relative to double
precision for the bounded window sizes, so the comparisons agree).
Timestamps are modelled as integers counting seconds; `now - 3600` and
`now - 7200` stand for `utcnow() - timedelta(hours=1)` and
`utcnow() - timedelta(hours=2)`.  The MongoDB collections are modelled as
lists of records, reads as list filters, and the effectful ingestion
endpoints as state-passing functions that also return a trace of storage
actions and an `Except` value for the HTTP-level outcome.
-/

namespace ORM

/-- `Platform` enum of `server.py`. -/
inductive Platform where
  | facebook
  | instagram
  deriving DecidableEq, Repr

/-- `SentimentType` enum of `server.py`. -/
inductive SentimentType where
  | positive
  | negative
  | neutral
  deriving DecidableEq, Repr

/-- `AlertType` enum of `server.py`. -/
inductive AlertType where
  | sentiment
  | volume
  | response_time
  deriving DecidableEq, Repr

/-- `AlertSeverity` enum of `server.py`. -/
inductive AlertSeverity where
  | low
  | medium
  | high
  | critical
  deriving DecidableEq, Repr

/-- The threshold step of `analyze_sentiment` (server.py lines 204-209):
the three-way category assigned to a compound polarity score. -/
def sentimentCategoryOf (compound_score : ℚ) : SentimentType :=
  if compound_score ≥ 5/100 then SentimentType.positive
  else if compound_score ≤ -(5/100) then SentimentType.negative
  else SentimentType.neutral

/-- `analyze_sentiment` (server.py lines 199-211).  The VADER analyzer is an
external collaborator; it is passed in as the function `polarity` from text
to compound score, and the categorisation applied to its output is the
code's. -/
def analyze_sentiment (polarity : String → ℚ) (text : String) : ℚ × SentimentType :=
  let compound_score := polarity text
  (compound_score, sentimentCategoryOf compound_score)

/-- `calculate_priority` (server.py lines 213-231): sentiment band plus
engagement bonus, capped at 5.  The Python default `engagement = 0` is
passed explicitly at each call site of the embedding. -/
def calculate_priority (sentiment_score : ℚ) (engagement : ℤ) : ℤ :=
  let priority : ℤ := 0
  let priority : ℤ :=
    if sentiment_score ≤ -(1/2) then priority + 5
    else if sentiment_score ≤ -(1/10) then priority + 3
    else if sentiment_score ≥ 1/2 then priority + 1
    else priority
  let priority : ℤ :=
    if engagement > 100 then priority + 2
    else if engagement > 50 then priority + 1
    else priority
  min priority 5

/-- Spec-side definition (§4.2 of the spec, and claim C4): the sentiment
band written as a standalone case analysis, to be compared with
`calculate_priority`. -/
def spec_sentiment_band (s : ℚ) : ℤ :=
  if s ≤ -(1/2) then 5
  else if s ≤ -(1/10) then 3
  else if s ≥ 1/2 then 1
  else 0

/-- Spec-side definition (§4.2 of the spec, and claim C4): the engagement
bonus written as a standalone case analysis. -/
def spec_engagement_bonus (e : ℤ) : ℤ :=
  if e > 100 then 2
  else if e > 50 then 1
  else 0

/-- A stored comment record (`Comment` model of server.py, lines 85-100).
`created_at` is a timestamp in seconds; `response_time` is in minutes. -/
structure StoredComment where
  id : String
  brand_id : String
  platform : Platform
  platform_id : String
  content : String
  author_name : String
  author_id : String
  post_id : String
  created_at : ℤ
  sentiment_score : ℚ
  sentiment_type : SentimentType
  needs_response : Bool
  has_response : Bool
  response_time : Option ℤ
  priority : ℤ
  deriving DecidableEq, Repr

/-- A stored mention record (`Mention` model of server.py, lines 111-124).
It carries no `needs_response` and no `priority` field. -/
structure StoredMention where
  id : String
  brand_id : String
  platform : Platform
  platform_id : String
  content : String
  author_name : String
  author_id : String
  url : String
  created_at : ℤ
  sentiment_score : ℚ
  sentiment_type : SentimentType
  reach : ℤ
  engagement : ℤ
  deriving DecidableEq, Repr

/-- A stored post record (`Post` model of server.py, lines 137-148).
It carries no `needs_response` and no `priority` field. -/
structure StoredPost where
  id : String
  brand_id : String
  platform : Platform
  platform_id : String
  content : String
  created_at : ℤ
  likes : ℤ
  shares : ℤ
  comments_count : ℤ
  sentiment_score : ℚ
  sentiment_type : SentimentType
  deriving DecidableEq, Repr

/-- An alert record (`Alert` / `AlertCreate` models of server.py).  The
free-form `data` dict is modelled as an association list from string keys
to numeric values. -/
structure Alert where
  brand_id : String
  alert_type : AlertType
  severity : AlertSeverity
  title : String
  description : String
  data : List (String × ℚ)
  deriving DecidableEq, Repr

/-- The `db.comments.find` query of `check_sentiment_alerts` (server.py
lines 237-241): comments of the brand with `created_at >= now - 2h`,
capped at 1000 results by `.to_list(1000)`. -/
def recent_comments (db : List StoredComment) (brand_id : String) (now : ℤ) :
    List StoredComment :=
  (db.filter fun c =>
    decide (c.brand_id = brand_id) && decide (now - 7200 ≤ c.created_at)).take 1000

/-- The negative ratio computed at server.py lines 246-247 for a fetched
window: number of comments with `sentiment_type == 'negative'` over the
window size. -/
def negative_ratio (window : List StoredComment) : ℚ :=
  ((window.filter fun c => decide (c.sentiment_type = SentimentType.negative)).length : ℚ)
    / (window.length : ℚ)

/-- `check_sentiment_alerts` (server.py lines 234-259), as the pure
alert-decision it makes from the stored comments: `none` when no alert is
created, `some a` when the alert `a` is handed to `create_alert`. -/
def check_sentiment_alerts (db : List StoredComment) (brand_id : String) (now : ℤ) :
    Option Alert :=
  let rc := recent_comments db brand_id now
  if rc.isEmpty then none
  else
    let r := negative_ratio rc
    if r > 3/10 then
      some { brand_id := brand_id
             alert_type := AlertType.sentiment
             severity := if r > 1/2 then AlertSeverity.high else AlertSeverity.medium
             title := "High Negative Sentiment Detected"
             description := "Negative sentiment ratio in the last 2 hours"
             data := [("negative_ratio", r), ("total_comments", (rc.length : ℚ))] }
    else none

/-- The `count_documents` call of `check_volume_alerts` for the current
window (server.py lines 267-270): comments of the brand with
`created_at >= now - 1h`. -/
def current_hour_count (db : List StoredComment) (brand_id : String) (now : ℤ) : ℕ :=
  (db.filter fun c =>
    decide (c.brand_id = brand_id) && decide (now - 3600 ≤ c.created_at)).length

/-- The `count_documents` call of `check_volume_alerts` for the previous
window (server.py lines 272-275): comments of the brand with
`now - 2h <= created_at < now - 1h`. -/
def previous_hour_count (db : List StoredComment) (brand_id : String) (now : ℤ) : ℕ :=
  (db.filter fun c =>
    decide (c.brand_id = brand_id) && decide (now - 7200 ≤ c.created_at)
      && decide (c.created_at < now - 3600)).length

/-- `check_volume_alerts` (server.py lines 261-289), as the pure
alert-decision it makes from the stored comments. -/
def check_volume_alerts (db : List StoredComment) (brand_id : String) (now : ℤ) :
    Option Alert :=
  let curr := current_hour_count db brand_id now
  let prev := previous_hour_count db brand_id now
  if prev > 0 then
    let volume_increase : ℚ := ((curr : ℚ) - (prev : ℚ)) / (prev : ℚ)
    if volume_increase > 2 then
      some { brand_id := brand_id
             alert_type := AlertType.volume
             severity := AlertSeverity.high
             title := "Unusual Activity Volume"
             description := "Comment volume increased in the last hour"
             data := [("volume_increase", volume_increase), ("current_count", (curr : ℚ))] }
    else none
  else none

/-- Request body of `POST /api/comments` (`CommentCreate`, server.py
lines 102-109). -/
structure CommentCreate where
  brand_id : String
  platform : Platform
  platform_id : String
  content : String
  author_name : String
  author_id : String
  post_id : String
  deriving DecidableEq, Repr

/-- Request body of `POST /api/mentions` (`MentionCreate`, server.py
lines 126-135). -/
structure MentionCreate where
  brand_id : String
  platform : Platform
  platform_id : String
  content : String
  author_name : String
  author_id : String
  url : String
  reach : ℤ
  engagement : ℤ
  deriving DecidableEq, Repr

/-- Request body of `POST /api/posts` (`PostCreate`, server.py
lines 150-157). -/
structure PostCreate where
  brand_id : String
  platform : Platform
  platform_id : String
  content : String
  likes : ℤ
  shares : ℤ
  comments_count : ℤ
  deriving DecidableEq, Repr

/-- The MongoDB collections touched by the ingestion endpoints. -/
structure DBState where
  comments : List StoredComment
  mentions : List StoredMention
  posts : List StoredPost
  alerts : List Alert
  deriving DecidableEq, Repr

/-- Failure of the storage collaborator: any motor/MongoDB call may raise;
the exception type is not inspected by server.py (no try/except exists
there), so one constructor suffices. -/
inductive StorageErr where
  | unavailable
  deriving DecidableEq, Repr

/-- Fault model for the storage collaborator during one ingestion call:
`insertEventFails` makes the event-write raise, `alertPhaseFails` makes the
first storage call of the alert-evaluation phase (window read, count, or
alert insert) raise. -/
structure StorageOracle where
  insertEventFails : Bool
  alertPhaseFails : Bool
  deriving DecidableEq, Repr

/-- Observable storage actions performed by an ingestion call, in order.
`sentimentCheck` / `volumeCheck` mark the synchronous invocations of
`check_sentiment_alerts` / `check_volume_alerts` for a brand. -/
inductive StorageAction where
  | insertComment (c : StoredComment)
  | insertMention (m : StoredMention)
  | insertPost (p : StoredPost)
  | sentimentCheck (brand_id : String)
  | volumeCheck (brand_id : String)
  | insertAlert (a : Alert)
  deriving DecidableEq, Repr

/-- Whether a storage action is an invocation of one of the two alert
detectors. -/
def StorageAction.isDetectorCall : StorageAction → Bool
  | StorageAction.sentimentCheck _ => true
  | StorageAction.volumeCheck _ => true
  | _ => false

/-- Outcome of one ingestion call: the resulting database state, the trace
of storage actions performed, and the HTTP-level result (`ok` = the stored
event is returned to the caller, `error` = the raised exception escapes the
endpoint). -/
structure IngestOutcome (α : Type) where
  db : DBState
  trace : List StorageAction
  result : Except StorageErr α
  deriving Repr

/-- The comment record built by `create_comment` (server.py lines 348-363):
sentiment from the classifier, priority from `calculate_priority` at the
default engagement 0, and
`needs_response = sentiment_score < -0.1 or priority >= 3`. -/
def ingestedComment (polarity : String → ℚ) (now : ℤ) (id : String)
    (input : CommentCreate) : StoredComment :=
  let sent := analyze_sentiment polarity input.content
  let priority := calculate_priority sent.1 0
  let needs_response := decide (sent.1 < -(1/10)) || decide (priority ≥ 3)
  { id := id
    brand_id := input.brand_id
    platform := input.platform
    platform_id := input.platform_id
    content := input.content
    author_name := input.author_name
    author_id := input.author_id
    post_id := input.post_id
    created_at := now
    sentiment_score := sent.1
    sentiment_type := sent.2
    needs_response := needs_response
    has_response := false
    response_time := none
    priority := priority }

/-- The mention record built by `create_mention` (server.py lines 412-419):
sentiment is attached, nothing else is derived — its type has no
`needs_response` and no `priority` field. -/
def ingestedMention (polarity : String → ℚ) (now : ℤ) (id : String)
    (input : MentionCreate) : StoredMention :=
  let sent := analyze_sentiment polarity input.content
  { id := id
    brand_id := input.brand_id
    platform := input.platform
    platform_id := input.platform_id
    content := input.content
    author_name := input.author_name
    author_id := input.author_id
    url := input.url
    created_at := now
    sentiment_score := sent.1
    sentiment_type := sent.2
    reach := input.reach
    engagement := input.engagement }

/-- The post record built by `create_post` (server.py lines 445-452):
sentiment is attached, nothing else is derived — its type has no
`needs_response` and no `priority` field. -/
def ingestedPost (polarity : String → ℚ) (now : ℤ) (id : String)
    (input : PostCreate) : StoredPost :=
  let sent := analyze_sentiment polarity input.content
  { id := id
    brand_id := input.brand_id
    platform := input.platform
    platform_id := input.platform_id
    content := input.content
    created_at := now
    likes := input.likes
    shares := input.shares
    comments_count := input.comments_count
    sentiment_score := sent.1
    sentiment_type := sent.2 }

/-- `create_comment` (server.py lines 346-371): classify, score priority
with the default engagement 0, derive `needs_response`, insert the comment,
then run both alert checks — with no try/except anywhere, so a raise in
the alert phase escapes after the insert has already happened.  `polarity`
stands for the external VADER analyzer, `now` for `datetime.utcnow()`, and
`id` for the generated `uuid4`. -/
def create_comment (polarity : String → ℚ) (o : StorageOracle) (now : ℤ) (id : String)
    (db : DBState) (input : CommentCreate) : IngestOutcome StoredComment :=
  let comment := ingestedComment polarity now id input
  if o.insertEventFails then
    { db := db, trace := [], result := Except.error StorageErr.unavailable }
  else
    let db1 : DBState := { db with comments := db.comments ++ [comment] }
    if o.alertPhaseFails then
      { db := db1
        trace := [StorageAction.insertComment comment,
                  StorageAction.sentimentCheck input.brand_id]
        result := Except.error StorageErr.unavailable }
    else
      let sAlert := check_sentiment_alerts db1.comments input.brand_id now
      let db2 : DBState := { db1 with alerts := db1.alerts ++ sAlert.toList }
      let vAlert := check_volume_alerts db2.comments input.brand_id now
      let db3 : DBState := { db2 with alerts := db2.alerts ++ vAlert.toList }
      { db := db3
        trace := [StorageAction.insertComment comment,
                  StorageAction.sentimentCheck input.brand_id]
                 ++ sAlert.toList.map StorageAction.insertAlert
                 ++ [StorageAction.volumeCheck input.brand_id]
                 ++ vAlert.toList.map StorageAction.insertAlert
        result := Except.ok comment }

/-- `create_mention` (server.py lines 410-422): classify and insert; no
priority, no `needs_response`, and no alert checks are performed. -/
def create_mention (polarity : String → ℚ) (o : StorageOracle) (now : ℤ) (id : String)
    (db : DBState) (input : MentionCreate) : IngestOutcome StoredMention :=
  let mention := ingestedMention polarity now id input
  if o.insertEventFails then
    { db := db, trace := [], result := Except.error StorageErr.unavailable }
  else
    { db := { db with mentions := db.mentions ++ [mention] }
      trace := [StorageAction.insertMention mention]
      result := Except.ok mention }

/-- `create_post` (server.py lines 443-455): classify and insert; no alert
checks are performed. -/
def create_post (polarity : String → ℚ) (o : StorageOracle) (now : ℤ) (id : String)
    (db : DBState) (input : PostCreate) : IngestOutcome StoredPost :=
  let post := ingestedPost polarity now id input
  if o.insertEventFails then
    { db := db, trace := [], result := Except.error StorageErr.unavailable }
  else
    { db := { db with posts := db.posts ++ [post] }
      trace := [StorageAction.insertPost post]
      result := Except.ok post }

/-! Concrete fixtures used by the witness and counterexample theorems. -/

/-- A classifier stub that scores every text 0 (neutral). -/
def zeroPolarity : String → ℚ := fun _ => 0

/-- Oracle for a run in which every storage call succeeds. -/
def oracleOk : StorageOracle := { insertEventFails := false, alertPhaseFails := false }

/-- Oracle for a run in which the event write succeeds but the alert
evaluation phase raises. -/
def oracleAlertFail : StorageOracle := { insertEventFails := false, alertPhaseFails := true }

/-- The empty database. -/
def emptyDB : DBState := { comments := [], mentions := [], posts := [], alerts := [] }

/-- A sample comment-creation request for brand `"b"`. -/
def sampleCommentCreate : CommentCreate :=
  { brand_id := "b", platform := Platform.facebook, platform_id := "pid"
    content := "hello", author_name := "an", author_id := "aid", post_id := "post1" }

/-- A sample mention-creation request for brand `"b"`. -/
def sampleMentionCreate : MentionCreate :=
  { brand_id := "b", platform := Platform.facebook, platform_id := "pid"
    content := "hello", author_name := "an", author_id := "aid"
    url := "u", reach := 100, engagement := 50 }

/-- A sample post-creation request for brand `"b"`. -/
def samplePostCreate : PostCreate :=
  { brand_id := "b", platform := Platform.facebook, platform_id := "pid"
    content := "hello", likes := 0, shares := 0, comments_count := 0 }

/-- A stored comment for brand `"b"` at time `t` with sentiment type `st`. -/
def sampleStored (t : ℤ) (st : SentimentType) : StoredComment :=
  { id := "c", brand_id := "b", platform := Platform.facebook, platform_id := "pid"
    content := "", author_name := "an", author_id := "aid", post_id := "post1"
    created_at := t, sentiment_score := 0, sentiment_type := st
    needs_response := false, has_response := false, response_time := none, priority := 0 }

/-- A comment database holding, for brand `"b"` at evaluation time 0, a
2-hour window of 10 comments of which `k` are negative. -/
def windowDB (k : ℕ) : List StoredComment :=
  List.replicate k (sampleStored 0 SentimentType.negative)
    ++ List.replicate (10 - k) (sampleStored 0 SentimentType.neutral)

/-- A comment database holding, for brand `"b"` at evaluation time 0, 10
comments in the previous hour and 35 in the current hour. -/
def volumeDB : List StoredComment :=
  List.replicate 10 (sampleStored (-5400) SentimentType.neutral)
    ++ List.replicate 35 (sampleStored 0 SentimentType.neutral)

/-- A comment database holding a single negative comment of brand `"b"` in
the 2-hour window before evaluation time 0. -/
def singleNegDB : List StoredComment := [sampleStored (-10) SentimentType.negative]

/-- A comment database holding, for brand `"b"` at evaluation time 0, 1
comment in the previous hour and 4 in the current hour. -/
def smallVolumeDB : List StoredComment :=
  List.replicate 1 (sampleStored (-5400) SentimentType.neutral)
    ++ List.replicate 4 (sampleStored 0 SentimentType.neutral)

/-! ## Theorems -/

/-- C4: for every sentiment score `s` and engagement `e`,
`calculate_priority s e` equals `min (band s + bonus e) 5`, where `band`
is 5 for `s ≤ -0.5`, else 3 for `s ≤ -0.1`, else 1 for `s ≥ 0.5`, else 0,
and `bonus` is 2 for `e > 100`, else 1 for `e > 50`, else 0; in
particular the value is 5 at `(-0.6, 150)` and 0 at `(-0.05, 0)`.  The
function is total by construction. -/
theorem priority_equals_band_plus_bonus :
    (∀ (s : ℚ) (e : ℤ),
      calculate_priority s e = min (spec_sentiment_band s + spec_engagement_bonus e) 5) ∧
    calculate_priority (-(6/10)) 150 = 5 ∧ calculate_priority (-(5/100)) 0 = 0 := by
  refine ⟨fun s e => ?_, by simp only [calculate_priority]; norm_num [min_def],
    by simp only [calculate_priority]; norm_num [min_def]⟩
  simp only [calculate_priority, spec_sentiment_band, spec_engagement_bonus]
  split_ifs <;> norm_num

/-- C5: the category assigned to a compound polarity score is positive iff
the score is `≥ 0.05`, negative iff it is `≤ -0.05`, and neutral iff it
lies strictly between; in particular `0.05` is positive, `-0.05` is
negative, and `0.0` is neutral. -/
theorem sentiment_category_thresholds :
    (∀ s : ℚ,
      (sentimentCategoryOf s = SentimentType.positive ↔ 5/100 ≤ s) ∧
      (sentimentCategoryOf s = SentimentType.negative ↔ s ≤ -(5/100)) ∧
      (sentimentCategoryOf s = SentimentType.neutral ↔ -(5/100) < s ∧ s < 5/100)) ∧
    sentimentCategoryOf (5/100) = SentimentType.positive ∧
    sentimentCategoryOf (-(5/100)) = SentimentType.negative ∧
    sentimentCategoryOf 0 = SentimentType.neutral := by
  refine ⟨fun s => ?_, by norm_num [sentimentCategoryOf],
    by norm_num [sentimentCategoryOf], by norm_num [sentimentCategoryOf]⟩
  unfold sentimentCategoryOf
  split_ifs with h1 h2
  · exact ⟨⟨fun _ => h1, fun _ => rfl⟩,
      ⟨fun h => absurd h (by decide), fun h => absurd h1 (by intro _; linarith)⟩,
      ⟨fun h => absurd h (by decide), fun h => absurd h1 (by intro _; linarith [h.2])⟩⟩
  · exact ⟨⟨fun h => absurd h (by decide), fun h => absurd h h1⟩,
      ⟨fun _ => h2, fun _ => rfl⟩,
      ⟨fun h => absurd h (by decide), fun h => absurd h.1 (not_lt.mpr h2)⟩⟩
  · exact ⟨⟨fun h => absurd h (by decide), fun h => absurd h h1⟩,
      ⟨fun h => absurd h (by decide), fun h => absurd h h2⟩,
      ⟨fun _ => ⟨not_le.mp h2, not_le.mp h1⟩, fun _ => rfl⟩⟩

/-- C7 counterexample: lowering the sentiment score from 0.5 to 0 (a
decrease) at fixed engagement 0 lowers the returned priority from 1 to 0,
so the priority is not monotone as the score decreases. -/
theorem priority_not_antitone_in_score :
    (0 : ℚ) ≤ 1/2 ∧ calculate_priority 0 0 < calculate_priority (1/2) 0 := by
  constructor
  · norm_num
  · simp only [calculate_priority]
    norm_num [min_def]

/-- C7 amended: for fixed engagement, decreasing the sentiment score never
decreases the priority as long as the starting score is below 0.5 (the +1
band for scores `≥ 0.5` breaks antitonicity across that boundary); for
fixed score, increasing engagement never decreases the priority; and the
result always lies in `[0, 5]`. -/
theorem priority_monotonicity :
    (∀ (e : ℤ) (s1 s2 : ℚ), s1 ≤ s2 → s2 < 1/2 →
      calculate_priority s2 e ≤ calculate_priority s1 e) ∧
    (∀ (s : ℚ) (e1 e2 : ℤ), e1 ≤ e2 →
      calculate_priority s e1 ≤ calculate_priority s e2) ∧
    (∀ (s : ℚ) (e : ℤ),
      0 ≤ calculate_priority s e ∧ calculate_priority s e ≤ 5) := by
  refine ⟨fun e s1 s2 h12 h2 => ?_, fun s e1 e2 h12 => ?_, fun s e => ?_⟩
  · simp only [calculate_priority]
    split_ifs <;> first | omega | linarith
  · simp only [calculate_priority]
    split_ifs <;> omega
  · simp only [calculate_priority]
    split_ifs <;> omega

/-- C7 witness: the amended monotonicity and range facts at concrete
inputs. -/
theorem priority_monotonicity_witness :
    calculate_priority (1/10) 0 ≤ calculate_priority (-(6/10)) 0 ∧
    calculate_priority (-(2/10)) 0 ≤ calculate_priority (-(2/10)) 200 ∧
    0 ≤ calculate_priority (-(6/10)) 200 ∧ calculate_priority (-(6/10)) 200 ≤ 5 :=
  ⟨priority_monotonicity.1 0 (-(6/10)) (1/10) (by norm_num) (by norm_num),
   priority_monotonicity.2.1 (-(2/10)) 0 200 (by norm_num),
   (priority_monotonicity.2.2 (-(6/10)) 200).1,
   (priority_monotonicity.2.2 (-(6/10)) 200).2⟩

/-- C1: for every brand and evaluation time, the sentiment detector emits
no alert when the fetched 2-hour window of the brand's comments is empty;
on a non-empty window it emits an alert iff the fraction of negative
comments strictly exceeds 0.30, with severity high iff that fraction
strictly exceeds 0.50 and medium otherwise. -/
theorem sentiment_detector_correct (db : List StoredComment) (brand_id : String) (now : ℤ) :
    (recent_comments db brand_id now = [] →
      check_sentiment_alerts db brand_id now = none) ∧
    (recent_comments db brand_id now ≠ [] →
      ((check_sentiment_alerts db brand_id now).isSome = true ↔
        negative_ratio (recent_comments db brand_id now) > 3/10) ∧
      ∀ a, check_sentiment_alerts db brand_id now = some a →
        a.severity = if negative_ratio (recent_comments db brand_id now) > 1/2
                     then AlertSeverity.high else AlertSeverity.medium) := by
  by_cases hw : recent_comments db brand_id now = []
  · refine ⟨fun _ => ?_, fun hne => absurd hw hne⟩
    simp only [check_sentiment_alerts]
    simp [hw]
  · have hne : (recent_comments db brand_id now).isEmpty = false := by
      cases h : recent_comments db brand_id now with
      | nil => exact absurd h hw
      | cons x xs => simp [h]
    refine ⟨fun h => absurd h hw, fun _ => ?_⟩
    by_cases hr : negative_ratio (recent_comments db brand_id now) > 3/10
    · constructor
      · simp only [check_sentiment_alerts]
        simp [hne, hr]
      · intro a ha
        simp only [check_sentiment_alerts] at ha
        rw [hne] at ha
        simp only [Bool.false_eq_true, if_false] at ha
        rw [if_pos hr] at ha
        have h2 := (Option.some.injEq _ _).mp ha
        rw [← h2]
    · constructor
      · simp only [check_sentiment_alerts]
        simp [hne, hr]
      · intro a ha
        simp only [check_sentiment_alerts] at ha
        rw [hne] at ha
        simp only [Bool.false_eq_true, if_false] at ha
        rw [if_neg hr] at ha
        exact absurd ha (by simp)

/-- C1 witness: for brand `"b"` at time 0 with a 10-comment window, 3
negative comments yield no alert, 4 yield a medium-severity alert, and 6
yield a high-severity alert. -/
theorem sentiment_detector_correct_witness :
    check_sentiment_alerts (windowDB 3) "b" 0 = none ∧
    (check_sentiment_alerts (windowDB 4) "b" 0).map Alert.severity
      = some AlertSeverity.medium ∧
    (check_sentiment_alerts (windowDB 6) "b" 0).map Alert.severity
      = some AlertSeverity.high := by
  have hr3 : negative_ratio (recent_comments (windowDB 3) "b" 0) = 3/10 := by
    unfold negative_ratio
    rw [show ((recent_comments (windowDB 3) "b" 0).filter
          fun c => decide (c.sentiment_type = SentimentType.negative)).length = 3 from rfl,
        show (recent_comments (windowDB 3) "b" 0).length = 10 from rfl]
    norm_num
  have hr4 : negative_ratio (recent_comments (windowDB 4) "b" 0) = 4/10 := by
    unfold negative_ratio
    rw [show ((recent_comments (windowDB 4) "b" 0).filter
          fun c => decide (c.sentiment_type = SentimentType.negative)).length = 4 from rfl,
        show (recent_comments (windowDB 4) "b" 0).length = 10 from rfl]
    norm_num
  have hr6 : negative_ratio (recent_comments (windowDB 6) "b" 0) = 6/10 := by
    unfold negative_ratio
    rw [show ((recent_comments (windowDB 6) "b" 0).filter
          fun c => decide (c.sentiment_type = SentimentType.negative)).length = 6 from rfl,
        show (recent_comments (windowDB 6) "b" 0).length = 10 from rfl]
    norm_num
  have hne3 : recent_comments (windowDB 3) "b" 0 ≠ [] := by
    intro h
    have : (recent_comments (windowDB 3) "b" 0).length = 10 := rfl
    rw [h] at this
    simp at this
  have hne4 : recent_comments (windowDB 4) "b" 0 ≠ [] := by
    intro h
    have : (recent_comments (windowDB 4) "b" 0).length = 10 := rfl
    rw [h] at this
    simp at this
  have hne6 : recent_comments (windowDB 6) "b" 0 ≠ [] := by
    intro h
    have : (recent_comments (windowDB 6) "b" 0).length = 10 := rfl
    rw [h] at this
    simp at this
  refine ⟨?_, ?_, ?_⟩
  · have h3 := (sentiment_detector_correct (windowDB 3) "b" 0).2 hne3
    have hno : ¬((check_sentiment_alerts (windowDB 3) "b" 0).isSome = true) := by
      intro hs
      have := h3.1.mp hs
      rw [hr3] at this
      norm_num at this
    exact Option.not_isSome_iff_eq_none.mp hno
  · have h4 := (sentiment_detector_correct (windowDB 4) "b" 0).2 hne4
    have hsome : (check_sentiment_alerts (windowDB 4) "b" 0).isSome = true :=
      h4.1.mpr (by rw [hr4]; norm_num)
    obtain ⟨a, ha⟩ := Option.isSome_iff_exists.mp hsome
    have hsev := h4.2 a ha
    rw [hr4, if_neg (by norm_num : ¬((4:ℚ)/10 > 1/2))] at hsev
    rw [ha, Option.map_some', hsev]
  · have h6 := (sentiment_detector_correct (windowDB 6) "b" 0).2 hne6
    have hsome : (check_sentiment_alerts (windowDB 6) "b" 0).isSome = true :=
      h6.1.mpr (by rw [hr6]; norm_num)
    obtain ⟨a, ha⟩ := Option.isSome_iff_exists.mp hsome
    have hsev := h6.2 a ha
    rw [hr6, if_pos (by norm_num : (6:ℚ)/10 > 1/2)] at hsev
    rw [ha, Option.map_some', hsev]

/-- C2: for every brand and evaluation time, the volume detector emits no
alert when the previous one-hour count is zero, regardless of the current
count; when the previous count is positive it emits an alert iff
`(current - previous) / previous` strictly exceeds 2.0, and every alert it
emits has severity high. -/
theorem volume_detector_correct (db : List StoredComment) (brand_id : String) (now : ℤ) :
    (previous_hour_count db brand_id now = 0 →
      check_volume_alerts db brand_id now = none) ∧
    (0 < previous_hour_count db brand_id now →
      ((check_volume_alerts db brand_id now).isSome = true ↔
        ((current_hour_count db brand_id now : ℚ) - (previous_hour_count db brand_id now : ℚ))
          / (previous_hour_count db brand_id now : ℚ) > 2) ∧
      ∀ a, check_volume_alerts db brand_id now = some a →
        a.severity = AlertSeverity.high) := by
  by_cases hp : previous_hour_count db brand_id now = 0
  · refine ⟨fun _ => ?_, fun hpos => absurd hp (by omega)⟩
    simp only [check_volume_alerts]
    simp [hp]
  · have hpos : 0 < previous_hour_count db brand_id now := Nat.pos_of_ne_zero hp
    refine ⟨fun h => absurd h hp, fun _ => ?_⟩
    by_cases hr : ((current_hour_count db brand_id now : ℚ)
        - (previous_hour_count db brand_id now : ℚ))
          / (previous_hour_count db brand_id now : ℚ) > 2
    · constructor
      · simp only [check_volume_alerts]
        simp [hpos, hr]
      · intro a ha
        simp only [check_volume_alerts] at ha
        rw [if_pos hpos, if_pos hr] at ha
        have h2 := (Option.some.injEq _ _).mp ha
        rw [← h2]
    · constructor
      · simp only [check_volume_alerts]
        simp [hpos, hr]
      · intro a ha
        simp only [check_volume_alerts] at ha
        rw [if_pos hpos, if_neg hr] at ha
        exact absurd ha (by simp)

/-- C2 witness: for brand `"b"` at time 0 with 10 comments in the previous
hour and 35 in the current hour, the increase ratio is 2.5 and a
high-severity alert is emitted; the counts evaluate as stated. -/
theorem volume_detector_correct_witness :
    previous_hour_count volumeDB "b" 0 = 10 ∧
    current_hour_count volumeDB "b" 0 = 35 ∧
    (check_volume_alerts volumeDB "b" 0).isSome = true ∧
    (check_volume_alerts volumeDB "b" 0).map Alert.severity = some AlertSeverity.high := by
  have hprev : previous_hour_count volumeDB "b" 0 = 10 := rfl
  have hcurr : current_hour_count volumeDB "b" 0 = 35 := rfl
  have h := (volume_detector_correct volumeDB "b" 0).2 (by rw [hprev]; norm_num)
  have hratio : ((current_hour_count volumeDB "b" 0 : ℚ)
      - (previous_hour_count volumeDB "b" 0 : ℚ))
        / (previous_hour_count volumeDB "b" 0 : ℚ) > 2 := by
    rw [hprev, hcurr]
    norm_num
  have hsome := h.1.mpr hratio
  obtain ⟨a, ha⟩ := Option.isSome_iff_exists.mp hsome
  exact ⟨hprev, hcurr, hsome, by rw [ha, Option.map_some', h.2 a ha]⟩

/-- C3 counterexample: with a successfully written event and a failing
alert phase, `create_comment` leaves the event persisted (one comment in
the store) but reports the failure to its caller instead of returning the
stored event — nothing in `create_comment` catches the alert-path error. -/
theorem alert_failure_fails_ingestion :
    (create_comment zeroPolarity oracleAlertFail 0 "id1" emptyDB
      sampleCommentCreate).db.comments.length = 1 ∧
    (create_comment zeroPolarity oracleAlertFail 0 "id1" emptyDB
      sampleCommentCreate).result = Except.error StorageErr.unavailable :=
  ⟨rfl, rfl⟩

/-- C3 amended: a failure raised during alert evaluation or alert
persistence does not undo the persisted event — the comment stays
appended to the store — but the error is not caught: it propagates and
the ingestion call reports failure to its caller. -/
theorem alert_failure_not_rolled_back (polarity : String → ℚ) (o : StorageOracle)
    (now : ℤ) (id : String) (db : DBState) (input : CommentCreate)
    (h1 : o.insertEventFails = false) (h2 : o.alertPhaseFails = true) :
    (create_comment polarity o now id db input).db.comments
      = db.comments ++ [ingestedComment polarity now id input] ∧
    (create_comment polarity o now id db input).result
      = Except.error StorageErr.unavailable := by
  simp [create_comment, h1, h2]

/-- C3 witness: the amended behaviour at a concrete ingestion with a
failing alert phase. -/
theorem alert_failure_not_rolled_back_witness :
    (create_comment zeroPolarity oracleAlertFail 0 "id1" emptyDB
      sampleCommentCreate).db.comments
        = emptyDB.comments ++ [ingestedComment zeroPolarity 0 "id1" sampleCommentCreate] ∧
    (create_comment zeroPolarity oracleAlertFail 0 "id1" emptyDB
      sampleCommentCreate).result = Except.error StorageErr.unavailable :=
  alert_failure_not_rolled_back zeroPolarity oracleAlertFail 0 "id1" emptyDB
    sampleCommentCreate rfl rfl

/-- C6: an ingested comment's stored `needs_response` flag is true exactly
when its stored sentiment score is below -0.1 or its stored priority is at
least 3; a successful comment ingestion returns exactly the record built by
`ingestedComment`, and successful mention and post ingestions return the
records built by `ingestedMention` and `ingestedPost`, whose types carry no
`needs_response` field at all. -/
theorem needs_response_flag :
    (∀ (polarity : String → ℚ) (now : ℤ) (id : String) (input : CommentCreate),
      ((ingestedComment polarity now id input).needs_response = true ↔
        ((ingestedComment polarity now id input).sentiment_score < -(1/10) ∨
         3 ≤ (ingestedComment polarity now id input).priority))) ∧
    (∀ (polarity : String → ℚ) (o : StorageOracle) (now : ℤ) (id : String)
        (db : DBState) (input : CommentCreate),
      o.insertEventFails = false → o.alertPhaseFails = false →
      (create_comment polarity o now id db input).result
        = Except.ok (ingestedComment polarity now id input)) ∧
    (∀ (polarity : String → ℚ) (o : StorageOracle) (now : ℤ) (id : String)
        (db : DBState) (minput : MentionCreate),
      o.insertEventFails = false →
      (create_mention polarity o now id db minput).result
        = Except.ok (ingestedMention polarity now id minput)) ∧
    (∀ (polarity : String → ℚ) (o : StorageOracle) (now : ℤ) (id : String)
        (db : DBState) (pinput : PostCreate),
      o.insertEventFails = false →
      (create_post polarity o now id db pinput).result
        = Except.ok (ingestedPost polarity now id pinput)) := by
  refine ⟨fun polarity now id input => ?_, fun polarity o now id db input h1 h2 => ?_,
    fun polarity o now id db minput h1 => ?_, fun polarity o now id db pinput h1 => ?_⟩
  · simp [ingestedComment, analyze_sentiment, Bool.or_eq_true, decide_eq_true_eq]
  · simp [create_comment, h1, h2]
  · simp [create_mention, h1]
  · simp [create_post, h1]

/-- C6 witness: the flag equivalence and the three successful-ingestion
results at concrete inputs. -/
theorem needs_response_flag_witness :
    ((ingestedComment zeroPolarity 0 "id1" sampleCommentCreate).needs_response = true ↔
      ((ingestedComment zeroPolarity 0 "id1" sampleCommentCreate).sentiment_score < -(1/10) ∨
       3 ≤ (ingestedComment zeroPolarity 0 "id1" sampleCommentCreate).priority)) ∧
    (create_comment zeroPolarity oracleOk 0 "id1" emptyDB sampleCommentCreate).result
      = Except.ok (ingestedComment zeroPolarity 0 "id1" sampleCommentCreate) ∧
    (create_mention zeroPolarity oracleOk 0 "id1" emptyDB sampleMentionCreate).result
      = Except.ok (ingestedMention zeroPolarity 0 "id1" sampleMentionCreate) ∧
    (create_post zeroPolarity oracleOk 0 "id1" emptyDB samplePostCreate).result
      = Except.ok (ingestedPost zeroPolarity 0 "id1" samplePostCreate) :=
  ⟨needs_response_flag.1 zeroPolarity 0 "id1" sampleCommentCreate,
   needs_response_flag.2.1 zeroPolarity oracleOk 0 "id1" emptyDB sampleCommentCreate rfl rfl,
   needs_response_flag.2.2.1 zeroPolarity oracleOk 0 "id1" emptyDB sampleMentionCreate rfl,
   needs_response_flag.2.2.2 zeroPolarity oracleOk 0 "id1" emptyDB samplePostCreate rfl⟩

/-- C9 counterexample: ingesting a mention persists the event and returns
successfully, yet its trace of storage actions contains no detector
invocation at all — `create_mention` (and likewise `create_post`) never
calls `check_sentiment_alerts` or `check_volume_alerts`. -/
theorem mention_ingestion_skips_detectors :
    (create_mention zeroPolarity oracleOk 0 "id1" emptyDB
      sampleMentionCreate).trace.filter StorageAction.isDetectorCall = [] ∧
    (create_mention zeroPolarity oracleOk 0 "id1" emptyDB
      sampleMentionCreate).db.mentions.length = 1 ∧
    (create_post zeroPolarity oracleOk 0 "id1" emptyDB
      samplePostCreate).trace.filter StorageAction.isDetectorCall = [] ∧
    (create_post zeroPolarity oracleOk 0 "id1" emptyDB
      samplePostCreate).db.posts.length = 1 :=
  ⟨rfl, rfl, rfl, rfl⟩

/-- C9 amended: only comment ingestion invokes the Alert Evaluator — on a
successful run, `create_comment` performs the sentiment check and then the
volume check for the event's brand immediately after persisting the
comment and before returning, while `create_mention` and `create_post`
persist their event and return without invoking any detector. -/
theorem detectors_only_on_comment_ingestion (polarity : String → ℚ) (o : StorageOracle)
    (now : ℤ) (id : String) (db : DBState) (input : CommentCreate)
    (minput : MentionCreate) (pinput : PostCreate)
    (h1 : o.insertEventFails = false) (h2 : o.alertPhaseFails = false) :
    (∃ rest : List StorageAction,
      (create_comment polarity o now id db input).trace
        = StorageAction.insertComment (ingestedComment polarity now id input)
            :: StorageAction.sentimentCheck input.brand_id :: rest ∧
      StorageAction.volumeCheck input.brand_id ∈ rest) ∧
    (create_mention polarity o now id db minput).trace.filter
      StorageAction.isDetectorCall = [] ∧
    (create_post polarity o now id db pinput).trace.filter
      StorageAction.isDetectorCall = [] := by
  refine ⟨?_, ?_, ?_⟩
  · simp only [create_comment, h1, h2]
    simp only [Bool.false_eq_true, if_false, List.cons_append, List.nil_append]
    exact ⟨_, rfl, by simp⟩
  · simp [create_mention, h1, StorageAction.isDetectorCall]
  · simp [create_post, h1, StorageAction.isDetectorCall]

/-- C9 witness: at a concrete successful ingestion for brand `"b"`, the
comment trace contains both detector invocations and the mention and post
traces contain none. -/
theorem detectors_only_on_comment_ingestion_witness :
    StorageAction.sentimentCheck "b" ∈ (create_comment zeroPolarity oracleOk 0 "id1"
      emptyDB sampleCommentCreate).trace ∧
    StorageAction.volumeCheck "b" ∈ (create_comment zeroPolarity oracleOk 0 "id1"
      emptyDB sampleCommentCreate).trace ∧
    (create_mention zeroPolarity oracleOk 0 "id1" emptyDB
      sampleMentionCreate).trace.filter StorageAction.isDetectorCall = [] ∧
    (create_post zeroPolarity oracleOk 0 "id1" emptyDB
      samplePostCreate).trace.filter StorageAction.isDetectorCall = [] := by
  obtain ⟨⟨rest, htr, hv⟩, hm, hp⟩ :=
    detectors_only_on_comment_ingestion zeroPolarity oracleOk 0 "id1" emptyDB
      sampleCommentCreate sampleMentionCreate samplePostCreate rfl rfl
  refine ⟨?_, ?_, hm, hp⟩
  · rw [htr]
    simp [sampleCommentCreate]
  · rw [htr]
    simp only [List.mem_cons]
    exact Or.inr (Or.inr hv)

/-- C10: the ingestion path scores a comment's priority with the default
engagement 0, so the stored priority equals
`calculate_priority (score) 0`, always lands in {0, 1, 3, 5}, and the
stored `needs_response` flag is true exactly when the comment's sentiment
score is at most -0.1. -/
theorem comment_priority_uses_default_engagement
    (polarity : String → ℚ) (now : ℤ) (id : String) (input : CommentCreate) :
    (ingestedComment polarity now id input).priority
        = calculate_priority (polarity input.content) 0 ∧
    ((ingestedComment polarity now id input).priority = 0 ∨
     (ingestedComment polarity now id input).priority = 1 ∨
     (ingestedComment polarity now id input).priority = 3 ∨
     (ingestedComment polarity now id input).priority = 5) ∧
    ((ingestedComment polarity now id input).needs_response = true ↔
      polarity input.content ≤ -(1/10)) := by
  refine ⟨rfl, ?_, ?_⟩
  · show calculate_priority (polarity input.content) 0 = 0 ∨
      calculate_priority (polarity input.content) 0 = 1 ∨
      calculate_priority (polarity input.content) 0 = 3 ∨
      calculate_priority (polarity input.content) 0 = 5
    simp only [calculate_priority]
    split_ifs <;> omega
  · show (decide (polarity input.content < -(1/10))
        || decide (calculate_priority (polarity input.content) 0 ≥ 3)) = true ↔
      polarity input.content ≤ -(1/10)
    simp only [Bool.or_eq_true, decide_eq_true_eq]
    constructor
    · rintro (h | h)
      · linarith
      · by_contra hs
        push_neg at hs
        have hle : calculate_priority (polarity input.content) 0 ≤ 1 := by
          simp only [calculate_priority]
          split_ifs <;> first | omega | linarith
        omega
    · intro h
      right
      simp only [calculate_priority]
      split_ifs <;> omega

/-- C10 witness: the three facts at a concrete ingestion whose classifier
scores the content 0. -/
theorem comment_priority_uses_default_engagement_witness :
    (ingestedComment zeroPolarity 0 "id1" sampleCommentCreate).priority
        = calculate_priority (zeroPolarity sampleCommentCreate.content) 0 ∧
    ((ingestedComment zeroPolarity 0 "id1" sampleCommentCreate).priority = 0 ∨
     (ingestedComment zeroPolarity 0 "id1" sampleCommentCreate).priority = 1 ∨
     (ingestedComment zeroPolarity 0 "id1" sampleCommentCreate).priority = 3 ∨
     (ingestedComment zeroPolarity 0 "id1" sampleCommentCreate).priority = 5) ∧
    ((ingestedComment zeroPolarity 0 "id1" sampleCommentCreate).needs_response = true ↔
      zeroPolarity sampleCommentCreate.content ≤ -(1/10)) :=
  comment_priority_uses_default_engagement zeroPolarity 0 "id1" sampleCommentCreate

/-- C8 counterexample: a concretely emitted sentiment alert carries the
payload keys `negative_ratio` and `total_comments` — not `total_count` —
and a concretely emitted volume alert carries `volume_increase` and
`current_count` — not `increase_ratio`. -/
theorem alert_payload_keys_counterexample :
    ((check_sentiment_alerts singleNegDB "b" 0).map fun a => a.data.map Prod.fst)
      = some ["negative_ratio", "total_comments"] ∧
    ((check_volume_alerts smallVolumeDB "b" 0).map fun a => a.data.map Prod.fst)
      = some ["volume_increase", "current_count"] := by
  constructor
  · have hne : ¬((recent_comments singleNegDB "b" 0).isEmpty = true) := by decide
    have hr : negative_ratio (recent_comments singleNegDB "b" 0) > 3/10 := by
      unfold negative_ratio
      rw [show ((recent_comments singleNegDB "b" 0).filter
            fun c => decide (c.sentiment_type = SentimentType.negative)).length = 1 from rfl,
          show (recent_comments singleNegDB "b" 0).length = 1 from rfl]
      norm_num
    simp only [check_sentiment_alerts]
    rw [if_neg hne, if_pos hr]
    rfl
  · have hp : previous_hour_count smallVolumeDB "b" 0 > 0 := by
      rw [show previous_hour_count smallVolumeDB "b" 0 = 1 from rfl]
      norm_num
    have hr : ((current_hour_count smallVolumeDB "b" 0 : ℚ)
        - (previous_hour_count smallVolumeDB "b" 0 : ℚ))
          / (previous_hour_count smallVolumeDB "b" 0 : ℚ) > 2 := by
      rw [show current_hour_count smallVolumeDB "b" 0 = 4 from rfl,
          show previous_hour_count smallVolumeDB "b" 0 = 1 from rfl]
      norm_num
    simp only [check_volume_alerts]
    rw [if_pos hp, if_pos hr]
    rfl

/-- C8 amended: every alert emitted by the sentiment detector carries the
diagnostic payload keys `negative_ratio` and `total_comments` (the window
ratio and the window size), and every alert emitted by the volume detector
carries the keys `volume_increase` and `current_count`. -/
theorem alert_payload_keys (db : List StoredComment) (brand_id : String) (now : ℤ) :
    (∀ a, check_sentiment_alerts db brand_id now = some a →
      a.data.map Prod.fst = ["negative_ratio", "total_comments"]) ∧
    (∀ a, check_volume_alerts db brand_id now = some a →
      a.data.map Prod.fst = ["volume_increase", "current_count"]) := by
  constructor
  · intro a ha
    simp only [check_sentiment_alerts] at ha
    by_cases h1 : (recent_comments db brand_id now).isEmpty = true
    · rw [if_pos h1] at ha
      exact absurd ha (by simp)
    · rw [if_neg h1] at ha
      by_cases h2 : negative_ratio (recent_comments db brand_id now) > 3/10
      · rw [if_pos h2] at ha
        have h3 := (Option.some.injEq _ _).mp ha
        rw [← h3]
        rfl
      · rw [if_neg h2] at ha
        exact absurd ha (by simp)
  · intro a ha
    simp only [check_volume_alerts] at ha
    by_cases h1 : previous_hour_count db brand_id now > 0
    · rw [if_pos h1] at ha
      by_cases h2 : ((current_hour_count db brand_id now : ℚ)
          - (previous_hour_count db brand_id now : ℚ))
            / (previous_hour_count db brand_id now : ℚ) > 2
      · rw [if_pos h2] at ha
        have h3 := (Option.some.injEq _ _).mp ha
        rw [← h3]
        rfl
      · rw [if_neg h2] at ha
        exact absurd ha (by simp)
    · rw [if_neg h1] at ha
      exact absurd ha (by simp)

/-- C8 witness: the amended payload keys read off concretely emitted
alerts for the 6-of-10 negative window and the 10-then-35 volume spike. -/
theorem alert_payload_keys_witness :
    ((check_sentiment_alerts (windowDB 6) "b" 0).map fun a => a.data.map Prod.fst)
      = some ["negative_ratio", "total_comments"] ∧
    ((check_volume_alerts volumeDB "b" 0).map fun a => a.data.map Prod.fst)
      = some ["volume_increase", "current_count"] := by
  constructor
  · have hne : ¬((recent_comments (windowDB 6) "b" 0).isEmpty = true) := by decide
    have hr : negative_ratio (recent_comments (windowDB 6) "b" 0) > 3/10 := by
      unfold negative_ratio
      rw [show ((recent_comments (windowDB 6) "b" 0).filter
            fun c => decide (c.sentiment_type = SentimentType.negative)).length = 6 from rfl,
          show (recent_comments (windowDB 6) "b" 0).length = 10 from rfl]
      norm_num
    rcases hoc : check_sentiment_alerts (windowDB 6) "b" 0 with _ | a
    · exfalso
      simp only [check_sentiment_alerts] at hoc
      rw [if_neg hne, if_pos hr] at hoc
      exact absurd hoc (by simp)
    · rw [Option.map_some', (alert_payload_keys (windowDB 6) "b" 0).1 a hoc]
  · have hp : previous_hour_count volumeDB "b" 0 > 0 := by
      rw [show previous_hour_count volumeDB "b" 0 = 10 from rfl]
      norm_num
    have hr : ((current_hour_count volumeDB "b" 0 : ℚ)
        - (previous_hour_count volumeDB "b" 0 : ℚ))
          / (previous_hour_count volumeDB "b" 0 : ℚ) > 2 := by
      rw [show current_hour_count volumeDB "b" 0 = 35 from rfl,
          show previous_hour_count volumeDB "b" 0 = 10 from rfl]
      norm_num
    rcases hoc : check_volume_alerts volumeDB "b" 0 with _ | a
    · exfalso
      simp only [check_volume_alerts] at hoc
      rw [if_pos hp, if_pos hr] at hoc
      exact absurd hoc (by simp)
    · rw [Option.map_some', (alert_payload_keys volumeDB "b" 0).2 a hoc]

end ORM
